import Mathlib

/-!
Verification of the custom-EVM precompile-dispatch example
(`examples/custom-evm/src/main.rs`).

The development shallowly embeds the example's data model and operations:
addresses, hardfork identifiers (`SpecId`), precompile sets (association
maps from address to native routine), the `EthPrecompiles` base provider,
the `CustomPrecompiles` wrapper with its `set_spec` / `run` / `contains` /
`warm_addresses` operations, the `prague_custom` once-initialized cache,
and the `MyEvmFactory` VM constructors.  Parts that live in external
crates (the canonical base precompile tables, the base provider's
behaviour, the interpreter loop) are modelled from the specification and
say so in their doc comments.
-/

namespace CustomEvm

/-- A 20-byte account / precompile address, compared by value.  Modelled as a
natural number (the value of the 20 bytes). -/
abbrev Address := Nat

/-- Call-input / return bytes, modelled as a list of byte values. -/
abbrev Bytes := List Nat

/-- The custom precompile address `0x0000000000000000000000000000000000000999`
registered by `prague_custom`. -/
def customAddress : Address := 0x999

/-- Hardfork identifier (`SpecId` from revm), totally ordered by activation. -/
inductive SpecId where
  | FRONTIER
  | HOMESTEAD
  | TANGERINE
  | SPURIOUS_DRAGON
  | BYZANTIUM
  | CONSTANTINOPLE
  | PETERSBURG
  | ISTANBUL
  | BERLIN
  | LONDON
  | MERGE
  | SHANGHAI
  | CANCUN
  | PRAGUE
  | OSAKA
  deriving DecidableEq

/-- Position of a hardfork in the activation order; gives the total order on
`SpecId`. -/
def SpecId.toNat : SpecId → Nat
  | .FRONTIER => 0
  | .HOMESTEAD => 1
  | .TANGERINE => 2
  | .SPURIOUS_DRAGON => 3
  | .BYZANTIUM => 4
  | .CONSTANTINOPLE => 5
  | .PETERSBURG => 6
  | .ISTANBUL => 7
  | .BERLIN => 8
  | .LONDON => 9
  | .MERGE => 10
  | .SHANGHAI => 11
  | .CANCUN => 12
  | .PRAGUE => 13
  | .OSAKA => 14

/-- Failure of a native routine (revm `PrecompileError`), e.g. out of gas. -/
inductive PrecompileError where
  | outOfGas
  | other
  deriving DecidableEq

/-- Successful output of a native routine: gas consumed and returned bytes
(revm `PrecompileOutput`). -/
structure PrecompileOutput where
  gas_used : Nat
  bytes : Bytes
  deriving DecidableEq

/-- Outcome of a native routine (revm `PrecompileResult`). -/
abbrev PrecompileResult := Except PrecompileError PrecompileOutput

/-- A native routine (revm `PrecompileFn`): a pure function of the call input
bytes and the gas limit. -/
abbrev PrecompileFn := Bytes → Nat → PrecompileResult

/-- One (address, routine) entry of a precompile set. -/
abbrev PrecompileEntry := Address × PrecompileFn

/-- First entry of the list whose key equals `a`. -/
def findEntry : List PrecompileEntry → Address → Option PrecompileEntry
  | [], _ => none
  | e :: es, a => if e.1 = a then some e else findEntry es a

/-- Insert an entry, overwriting an existing entry with the same key (the
semantics of extending a hash map: on collision the new entry wins). -/
def insertEntry : List PrecompileEntry → PrecompileEntry → List PrecompileEntry
  | [], e => [e]
  | f :: es, e => if f.1 = e.1 then e :: es else f :: insertEntry es e

/-- A precompile set (revm `Precompiles`): a mapping from addresses to native
routines, here an association list with overwrite-on-collision insertion. -/
structure Precompiles where
  entries : List PrecompileEntry

/-- Look up the routine stored at `a`. -/
def Precompiles.get (p : Precompiles) (a : Address) : Option PrecompileFn :=
  (findEntry p.entries a).map (fun e => e.2)

/-- Whether the set defines a routine at `a`. -/
def Precompiles.containsAddr (p : Precompiles) (a : Address) : Bool :=
  (findEntry p.entries a).isSome

/-- The addresses of the set, in insertion order. -/
def Precompiles.addresses (p : Precompiles) : List Address :=
  p.entries.map (fun e => e.1)

/-- Extend the set with a list of entries, each overwriting any collision
(revm `Precompiles::extend`). -/
def Precompiles.extend (p : Precompiles) (l : List PrecompileEntry) : Precompiles :=
  ⟨List.foldl insertEntry p.entries l⟩

/-- Modelled from the spec: the canonical native routines of the base
Ethereum precompile sets live in an external crate; only their addresses
matter to the claims, so each is modelled as an opaque-in-spirit but total
routine. -/
def baseRoutine (_a : Address) : PrecompileFn :=
  fun _input _gasLimit => Except.ok ⟨0, []⟩

/-- Modelled from the spec: the addresses of the canonical base precompile
set for each hardfork (external crate).  Frontier..Spurious Dragon define
`0x01`–`0x04`, Byzantium adds `0x05`–`0x08`, Istanbul adds `0x09`, Cancun
adds `0x0a`, Prague adds the BLS routines `0x0b`–`0x11`. -/
def baseAddresses (s : SpecId) : List Address :=
  match s with
  | .FRONTIER | .HOMESTEAD | .TANGERINE | .SPURIOUS_DRAGON =>
      (List.range 4).map (fun i => i + 1)
  | .BYZANTIUM | .CONSTANTINOPLE | .PETERSBURG =>
      (List.range 8).map (fun i => i + 1)
  | .ISTANBUL | .BERLIN | .LONDON | .MERGE | .SHANGHAI =>
      (List.range 9).map (fun i => i + 1)
  | .CANCUN =>
      (List.range 10).map (fun i => i + 1)
  | .PRAGUE | .OSAKA =>
      (List.range 17).map (fun i => i + 1)

/-- Modelled from the spec: the canonical base precompile set for a hardfork
(external crate `Precompiles::new(PrecompileSpecId::from_spec_id(..))`). -/
def Precompiles.base (s : SpecId) : Precompiles :=
  ⟨(baseAddresses s).map (fun a => (a, baseRoutine a))⟩

/-- The canonical base Prague set (revm `Precompiles::prague()`). -/
def Precompiles.prague : Precompiles :=
  Precompiles.base SpecId.PRAGUE

/-- The custom native routine registered at `customAddress` in
`prague_custom`: ignores its input and returns `(gas_used = 0, output = b"")`
successfully. -/
def customRoutine : PrecompileFn :=
  fun _input _gasLimit => Except.ok ⟨0, []⟩

/-- The value the `prague_custom` cache builds on first use: the base Prague
set extended with the custom entry at `customAddress`. -/
def buildPragueCustom : Precompiles :=
  Precompiles.prague.extend [(customAddress, customRoutine)]

/-- State of the `static INSTANCE: OnceLock<Precompiles>` cell backing
`prague_custom`, modelled as explicit state passing: `none` is the
uninitialized cell, `some p` the published value `p`. -/
abbrev OnceCell := Option Precompiles

/-- `prague_custom()` from the example: `INSTANCE.get_or_init(|| ...)` —
returns the published set if the cell is initialized, otherwise builds
`buildPragueCustom`, publishes it and returns it.  The cell state is
threaded explicitly. -/
def prague_custom (cell : OnceCell) : Precompiles × OnceCell :=
  match cell with
  | some p => (p, some p)
  | none => (buildPragueCustom, some buildPragueCustom)

/-- The base provider (revm `EthPrecompiles`): a reference to an active
precompile set together with the spec it was derived from. -/
structure EthPrecompiles where
  precompiles : Precompiles
  spec : SpecId

/-- Modelled from the spec: the base provider's default configuration
(`EthPrecompiles::default()`), the canonical base set for the default
(latest) spec.  The custom address is in no base set, so the exact default
spec does not affect the claims; Prague is used. -/
def EthPrecompiles.default : EthPrecompiles :=
  ⟨Precompiles.base SpecId.PRAGUE, SpecId.PRAGUE⟩

/-- Modelled from the spec: the base provider's `set_spec` re-derives its
active set purely as a function of the new spec (the canonical base set for
that spec) and returns `true`. -/
def EthPrecompiles.set_spec (_p : EthPrecompiles) (s : SpecId) : EthPrecompiles × Bool :=
  (⟨Precompiles.base s, s⟩, true)

/-- Whether the provider's active set defines a routine at `a`. -/
def EthPrecompiles.containsAddr (p : EthPrecompiles) (a : Address) : Bool :=
  p.precompiles.containsAddr a

/-- The provider's warm addresses: every address of the active set. -/
def EthPrecompiles.warm_addresses (p : EthPrecompiles) : List Address :=
  p.precompiles.addresses

/-- Modelled from the spec: the base provider's `run` looks the address up in
the currently active set; if absent it returns the "not a precompile"
result `Except.ok none`; if present it invokes the native routine on the
call input and gas limit and propagates its outcome verbatim.  The
execution context is not consulted by any routine of this example and the
static flag is accepted but not used by the routines, as in the source. -/
def EthPrecompiles.run (p : EthPrecompiles) (a : Address) (input : Bytes)
    (_is_static : Bool) (gas_limit : Nat) :
    Except String (Option PrecompileResult) :=
  match p.precompiles.get a with
  | none => Except.ok none
  | some f => Except.ok (some (f input gas_limit))

/-- The dispatcher of the example (`CustomPrecompiles`): wraps a base
provider. -/
structure CustomPrecompiles where
  precompiles : EthPrecompiles

/-- `CustomPrecompiles::new()`: wraps `EthPrecompiles::default()`. -/
def CustomPrecompiles.new : CustomPrecompiles :=
  ⟨EthPrecompiles.default⟩

/-- `CustomPrecompiles::set_spec`: if the spec is exactly `PRAGUE`, the
active provider becomes the custom Prague set (fetched from the
`prague_custom` cache, whose value is `buildPragueCustom`) tagged with the
spec; otherwise the call delegates to the base provider's `set_spec`.  The
call returns `true` in every case. -/
def CustomPrecompiles.set_spec (c : CustomPrecompiles) (spec : SpecId) :
    CustomPrecompiles × Bool :=
  if spec = SpecId.PRAGUE then
    (⟨⟨buildPragueCustom, spec⟩⟩, true)
  else
    (⟨(EthPrecompiles.set_spec c.precompiles spec).1⟩, true)

/-- `CustomPrecompiles::run`: forwards to the wrapped base provider. -/
def CustomPrecompiles.run (c : CustomPrecompiles) (a : Address) (input : Bytes)
    (is_static : Bool) (gas_limit : Nat) :
    Except String (Option PrecompileResult) :=
  EthPrecompiles.run c.precompiles a input is_static gas_limit

/-- `CustomPrecompiles::contains`: forwards to the wrapped base provider. -/
def CustomPrecompiles.containsAddr (c : CustomPrecompiles) (a : Address) : Bool :=
  EthPrecompiles.containsAddr c.precompiles a

/-- `CustomPrecompiles::warm_addresses`: forwards to the wrapped base
provider. -/
def CustomPrecompiles.warm_addresses (c : CustomPrecompiles) : List Address :=
  EthPrecompiles.warm_addresses c.precompiles

/-- The configuration environment of an `EvmEnv` (the fields the claims
need: the active spec plus an opaque remainder). -/
structure CfgEnv where
  spec : SpecId
  chain_id : Nat

/-- The block environment of an `EvmEnv` (opaque payload; the claims only
need value equality). -/
structure BlockEnv where
  number : Nat
  timestamp : Nat
  gas_limit : Nat
  basefee : Nat

/-- `EvmEnv`: configuration plus block environment. -/
structure EvmEnv where
  cfg_env : CfgEnv
  block_env : BlockEnv

/-- A constructed VM instance: database handle, configuration and block
environment taken from the `EvmEnv`, the installed precompile dispatcher,
and the inspect flag passed to `EthEvm::new`. -/
structure Evm (DB : Type) where
  db : DB
  cfg_env : CfgEnv
  block_env : BlockEnv
  precompiles : CustomPrecompiles
  inspect : Bool

/-- An observation hook: carried state and an on-step callback fed with the
observed call target.  Its output never feeds back into execution. -/
structure Inspector (I : Type) where
  state : I
  on_step : I → Address → I

/-- The no-op hook installed by `create_evm`. -/
def noOpInspector : Inspector Unit :=
  ⟨(), fun s _ => s⟩

/-- A VM carrying a caller-supplied inspector. -/
structure InspectedEvm (DB I : Type) where
  evm : Evm DB
  inspector : Inspector I

/-- `MyEvmFactory::create_evm`: builds the VM from the database and the
`EvmEnv`'s configuration and block environment, installs a freshly
constructed `CustomPrecompiles::new()` dispatcher, and passes `false` for
the inspect flag. -/
def MyEvmFactory.create_evm {DB : Type} (db : DB) (input : EvmEnv) : Evm DB :=
  { db := db
    cfg_env := input.cfg_env
    block_env := input.block_env
    precompiles := CustomPrecompiles.new
    inspect := false }

/-- `MyEvmFactory::create_evm_with_inspector`: the VM of `create_evm` with
the no-op hook replaced by the caller-supplied one and the inspect flag set
to `true`. -/
def MyEvmFactory.create_evm_with_inspector {DB I : Type} (db : DB) (input : EvmEnv)
    (inspector : Inspector I) : InspectedEvm DB I :=
  { evm := { MyEvmFactory.create_evm db input with inspect := true }
    inspector := inspector }

/-- A transaction, reduced to the fields the in-scope core consumes: target
address, call input and gas limit. -/
structure Transaction where
  to_address : Address
  input : Bytes
  gas_limit : Nat

/-- Modelled from the spec: the opcode interpreter loop is out of scope and
consumed as a black box that calls into the precompile dispatcher.
Executing a transaction is modelled as the in-scope part of that loop: the
dispatcher is reconfigured to the context's active spec, then the
transaction's target address is dispatched through the provider, whose
outcome (returned bytes and gas used on success) is the execution output. -/
def Evm.transact {DB : Type} (vm : Evm DB) (tx : Transaction) :
    Except String (Option PrecompileResult) :=
  CustomPrecompiles.run ((CustomPrecompiles.set_spec vm.precompiles vm.cfg_env.spec).1)
    tx.to_address tx.input false tx.gas_limit

/-- Executing a transaction on an inspected VM: the execution output is that
of the underlying VM; the hook only folds over the observed events,
producing a final inspector state that never feeds back into the output. -/
def InspectedEvm.transact {DB I : Type} (vm : InspectedEvm DB I) (tx : Transaction) :
    Except String (Option PrecompileResult) × I :=
  (vm.evm.transact tx, vm.inspector.on_step vm.inspector.state tx.to_address)

/-- Inserting an entry never removes a key: a key found before the insertion
is still found afterwards. -/
theorem findEntry_isSome_insertEntry (es : List PrecompileEntry) (e : PrecompileEntry)
    (a : Address) (h : (findEntry es a).isSome = true) :
    (findEntry (insertEntry es e) a).isSome = true := by
  induction es with
  | nil => simp [findEntry] at h
  | cons f es ih =>
    by_cases hfe : f.1 = e.1
    · simp only [insertEntry, if_pos hfe]
      by_cases hfa : f.1 = a
      · have hea : e.1 = a := hfe ▸ hfa
        simp [findEntry, hea]
      · have hea : ¬ e.1 = a := hfe ▸ hfa
        simp only [findEntry, if_neg hea]
        simpa only [findEntry, if_neg hfa] using h
    · simp only [insertEntry, if_neg hfe]
      by_cases hfa : f.1 = a
      · simp [findEntry, hfa]
      · simp only [findEntry, if_neg hfa] at h ⊢
        exact ih h

/-- A key that occurs in no entry is not found. -/
theorem findEntry_eq_none (es : List PrecompileEntry) (a : Address)
    (h : a ∉ es.map (fun e => e.1)) : findEntry es a = none := by
  induction es with
  | nil => rfl
  | cons f es ih =>
    simp only [List.map_cons, List.mem_cons] at h
    push_neg at h
    have hne : ¬ f.1 = a := fun hf => h.1 hf.symm
    simp only [findEntry, if_neg hne]
    exact ih h.2

/-- C1: for every dispatcher state and spec, `CustomPrecompiles.set_spec`
returns `true`, and reconfigures the active provider to the custom set
fetched from the `prague_custom` cache when the spec is `PRAGUE`, and
otherwise to the result of the base provider's own `set_spec`. -/
theorem c1_set_spec_policy (c : CustomPrecompiles) (s : SpecId) :
    (c.set_spec s).2 = true ∧
    (c.set_spec s).1.precompiles =
      (if s = SpecId.PRAGUE then ⟨(prague_custom none).1, s⟩
       else (EthPrecompiles.set_spec c.precompiles s).1) := by
  constructor
  · unfold CustomPrecompiles.set_spec
    split <;> rfl
  · unfold CustomPrecompiles.set_spec
    split <;> rfl

/-- C2: after `set_spec PRAGUE` the dispatcher contains the custom address,
running the custom address succeeds with zero gas used and empty output
bytes for every input, and after a subsequent `set_spec` to any pre-Prague
spec the custom address is no longer contained. -/
theorem c2_prague_scenario (c : CustomPrecompiles) (input : Bytes) (st : Bool)
    (gl : Nat) (s : SpecId) (hs : s.toNat < SpecId.PRAGUE.toNat) :
    ((c.set_spec SpecId.PRAGUE).1.containsAddr customAddress = true) ∧
    ((c.set_spec SpecId.PRAGUE).1.run customAddress input st gl
       = Except.ok (some (Except.ok ⟨0, []⟩))) ∧
    (((c.set_spec SpecId.PRAGUE).1.set_spec s).1.containsAddr customAddress = false) := by
  refine ⟨rfl, rfl, ?_⟩
  cases s <;> first
    | rfl
    | exact absurd hs (by decide)

/-- C2 witness: the scenario evaluated at a fresh dispatcher, empty input,
and Cancun as the pre-Prague spec. -/
theorem c2_prague_scenario_witness :
    SpecId.CANCUN.toNat < SpecId.PRAGUE.toNat ∧
    ((CustomPrecompiles.new.set_spec SpecId.PRAGUE).1.containsAddr customAddress = true) ∧
    ((CustomPrecompiles.new.set_spec SpecId.PRAGUE).1.run customAddress [] false 100000
       = Except.ok (some (Except.ok ⟨0, []⟩))) ∧
    (((CustomPrecompiles.new.set_spec SpecId.PRAGUE).1.set_spec SpecId.CANCUN).1.containsAddr
        customAddress = false) :=
  ⟨by decide,
   c2_prague_scenario CustomPrecompiles.new [] false 100000 SpecId.CANCUN (by decide)⟩

/-- C3: the `prague_custom` cache is memoized: from any cell state, a second
call returns exactly the set the first call returned, the second call does
not rebuild (it leaves the cell unchanged), and the published cell holds
the returned set, never mutated afterwards. -/
theorem c3_prague_custom_memoized (cell : OnceCell) :
    (prague_custom ((prague_custom cell).2)).1 = (prague_custom cell).1 ∧
    (prague_custom ((prague_custom cell).2)).2 = (prague_custom cell).2 ∧
    (prague_custom cell).2 = some ((prague_custom cell).1) := by
  cases cell <;> exact ⟨rfl, rfl, rfl⟩

/-- C4: the custom Prague set is built at construction time as the canonical
base Prague set extended — with overwrite on collision — by the custom
entry; it maps the custom address to the custom routine, and every address
of the base Prague set is still present in it. -/
theorem c4_prague_custom_extends_base (a : Address)
    (h : Precompiles.prague.containsAddr a = true) :
    buildPragueCustom = Precompiles.prague.extend [(customAddress, customRoutine)] ∧
    buildPragueCustom.get customAddress = some customRoutine ∧
    buildPragueCustom.containsAddr a = true := by
  refine ⟨rfl, rfl, ?_⟩
  have he : buildPragueCustom.entries
      = insertEntry Precompiles.prague.entries (customAddress, customRoutine) := rfl
  unfold Precompiles.containsAddr at h ⊢
  rw [he]
  exact findEntry_isSome_insertEntry _ _ _ h

/-- C4 witness: the base-address-preservation applied at address `0x01`. -/
theorem c4_prague_custom_extends_base_witness :
    Precompiles.prague.containsAddr 1 = true ∧
    (buildPragueCustom = Precompiles.prague.extend [(customAddress, customRoutine)] ∧
     buildPragueCustom.get customAddress = some customRoutine ∧
     buildPragueCustom.containsAddr 1 = true) :=
  ⟨rfl, c4_prague_custom_extends_base 1 rfl⟩

/-- C5: for an address absent from the dispatcher's currently active set,
`contains` answers `false` and `run` answers the "absent" result
`Except.ok none` — a negative lookup, not a routine failure — for every
input, static flag and gas limit. -/
theorem c5_absent_address (c : CustomPrecompiles) (b : Address) (input : Bytes)
    (st : Bool) (gl : Nat)
    (h : b ∉ c.precompiles.precompiles.addresses) :
    c.containsAddr b = false ∧ c.run b input st gl = Except.ok none := by
  have hn : findEntry c.precompiles.precompiles.entries b = none :=
    findEntry_eq_none _ _ h
  constructor
  · unfold CustomPrecompiles.containsAddr EthPrecompiles.containsAddr
      Precompiles.containsAddr
    rw [hn]
    rfl
  · unfold CustomPrecompiles.run EthPrecompiles.run Precompiles.get
    rw [hn]
    rfl

/-- C5 witness: the custom address is absent from a fresh dispatcher's active
set, so lookup and dispatch on it answer negatively. -/
theorem c5_absent_address_witness :
    customAddress ∉ CustomPrecompiles.new.precompiles.precompiles.addresses ∧
    (CustomPrecompiles.new.containsAddr customAddress = false ∧
     CustomPrecompiles.new.run customAddress [] false 100000 = Except.ok none) :=
  ⟨by decide, c5_absent_address CustomPrecompiles.new customAddress [] false 100000 (by decide)⟩

/-- C6: determinism — two VMs built by `create_evm` from equal databases and
equal `EvmEnv` inputs produce identical execution outputs (output bytes and
gas used are part of the output value) on the same transaction. -/
theorem c6_create_evm_deterministic {DB : Type} (db1 db2 : DB)
    (env1 env2 : EvmEnv) (tx1 tx2 : Transaction)
    (hdb : db1 = db2) (henv : env1 = env2) (htx : tx1 = tx2) :
    (MyEvmFactory.create_evm db1 env1).transact tx1
      = (MyEvmFactory.create_evm db2 env2).transact tx2 := by
  subst hdb henv htx
  rfl

/-- C6 witness: determinism evaluated at a concrete database, environment and
transaction. -/
theorem c6_create_evm_deterministic_witness :
    (MyEvmFactory.create_evm (0 : Nat)
        ⟨⟨SpecId.PRAGUE, 1⟩, ⟨0, 0, 30000000, 7⟩⟩).transact ⟨customAddress, [], 21000⟩
      = (MyEvmFactory.create_evm (0 : Nat)
        ⟨⟨SpecId.PRAGUE, 1⟩, ⟨0, 0, 30000000, 7⟩⟩).transact ⟨customAddress, [], 21000⟩ :=
  c6_create_evm_deterministic 0 0 _ _ _ _ rfl rfl rfl

/-- C7: the inspector hook is behaviourally inert — for every database,
environment, inspector and transaction, the execution output of the VM
built by `create_evm_with_inspector` equals that of the VM built by
`create_evm` on the same inputs. -/
theorem c7_inspector_inert {DB I : Type} (db : DB) (input : EvmEnv)
    (inspector : Inspector I) (tx : Transaction) :
    ((MyEvmFactory.create_evm_with_inspector db input inspector).transact tx).1
      = (MyEvmFactory.create_evm db input).transact tx := rfl

/-- C8: `set_spec` is history-free — after `set_spec s`, any two dispatchers,
whatever their prior configurations, hold the same state: the result is a
function of the spec alone. -/
theorem c8_set_spec_history_free (s : SpecId) (c1 c2 : CustomPrecompiles) :
    (c1.set_spec s).1 = (c2.set_spec s).1 := by
  unfold CustomPrecompiles.set_spec EthPrecompiles.set_spec
  split <;> rfl

/-- C9: the custom set is selected only on exact spec equality with `PRAGUE`:
for every spec strictly after Prague in the hardfork order, `set_spec`
delegates to the base provider's `set_spec`, and the custom address is not
contained afterwards. -/
theorem c9_post_prague_default (c : CustomPrecompiles) (s : SpecId)
    (h : SpecId.PRAGUE.toNat < s.toNat) :
    (c.set_spec s).1.precompiles = (EthPrecompiles.set_spec c.precompiles s).1 ∧
    (c.set_spec s).1.containsAddr customAddress = false := by
  have hne : s ≠ SpecId.PRAGUE := by
    intro he
    subst he
    exact absurd h (by decide)
  constructor
  · unfold CustomPrecompiles.set_spec
    rw [if_neg hne]
  · unfold CustomPrecompiles.set_spec
    rw [if_neg hne]
    cases s <;> rfl

/-- C9 witness: the post-Prague behaviour evaluated at Osaka on a fresh
dispatcher. -/
theorem c9_post_prague_default_witness :
    SpecId.PRAGUE.toNat < SpecId.OSAKA.toNat ∧
    ((CustomPrecompiles.new.set_spec SpecId.OSAKA).1.precompiles
        = (EthPrecompiles.set_spec CustomPrecompiles.new.precompiles SpecId.OSAKA).1 ∧
     (CustomPrecompiles.new.set_spec SpecId.OSAKA).1.containsAddr customAddress = false) :=
  ⟨by decide, c9_post_prague_default CustomPrecompiles.new SpecId.OSAKA (by decide)⟩

/-- C10: a fresh VM starts in the default configuration — both constructors
install `CustomPrecompiles.new`, which wraps `EthPrecompiles.default`,
whatever spec the supplied environment names, and that fresh dispatcher
does not contain the custom address. -/
theorem c10_fresh_dispatcher_default {DB I : Type} (db : DB) (input : EvmEnv)
    (inspector : Inspector I) :
    (MyEvmFactory.create_evm db input).precompiles = CustomPrecompiles.new ∧
    (MyEvmFactory.create_evm_with_inspector db input inspector).evm.precompiles
        = CustomPrecompiles.new ∧
    CustomPrecompiles.new.precompiles = EthPrecompiles.default ∧
    CustomPrecompiles.new.containsAddr customAddress = false :=
  ⟨rfl, rfl, rfl, rfl⟩

end CustomEvm
